import Mathlib

/-!
Verification development for the MatchMyStack backend core: the resume
parsing pipeline (`app/services/resume_parser.py`), the embedding cosine
similarity (`app/services/embedding_engine.py`) and the matching/ranking
engine (`app/services/matching_engine.py`).

Modelling conventions:
* Python floats are modelled as exact rationals (`ℚ`); `math`/NumPy square
  root is an oracle parameter `sq : ℚ → ℚ` constrained only where a claim
  needs the IEEE fact `sqrt x = 0 ↔ x = 0` (for `x ≥ 0`).
* Python strings are `String` / `List Char` (code points); `str.lower`
  is the per-character ASCII lowering `Char.toLower`, `str.strip` is
  `pyStrip` over the Python whitespace class.
* The external PDF decoding libraries (pdfplumber, PyPDF2) and the
  lossy `bytes.decode("utf-8", errors="ignore")` are opaque: a call's
  outcome on the (possibly truncated) input bytes is an `ExtractEnv`
  record supplied as a parameter.
* The regular expressions of the parser are compiled by hand into
  backtracking matchers over `List Char` that follow Python `re`
  semantics (leftmost search, greedy quantifiers with backtracking,
  ASCII word boundaries for `\b`).
-/

/-! ### Character and string utilities (Python semantics) -/

/-- Python `\s` whitespace class (ASCII part): space, tab, LF, CR, VT, FF. -/
def isSpacePy (c : Char) : Bool :=
  c == ' ' || c == '\t' || c == '\n' || c == '\r' || c == '\x0b' || c == '\x0c'

/-- Python regex word character `\w` (ASCII part): letters, digits, underscore. -/
def isWordChar (c : Char) : Bool := c.isAlphanum || c == '_'

/-- `startsWithChars needle hay` : `needle` is a prefix of `hay`. -/
def startsWithChars : List Char → List Char → Bool
  | [], _ => true
  | _ :: _, [] => false
  | a :: as, b :: bs => a == b && startsWithChars as bs

/-- The substring `w` occurs in `s` at index `i` (Python slice comparison). -/
def substrAt (w s : List Char) (i : Nat) : Bool := startsWithChars w (s.drop i)

/-- Python `w in s` : substring containment. -/
def containsSub (w s : List Char) : Bool :=
  (List.range (s.length + 1)).any (fun i => substrAt w s i)

/-- Python `s.find(w)` restricted to the case `w in s`: index of first occurrence. -/
def findSub (w s : List Char) : Option Nat :=
  (List.range (s.length + 1)).find? (fun i => substrAt w s i)

/-- Whether the character at index `i` of `s` exists and is a word character. -/
def charAtIsWord (s : List Char) (i : Nat) : Bool :=
  match s.get? i with
  | some c => isWordChar c
  | none => false

/-- Python regex `\b` holds between positions `i-1` and `i` (out of range is non-word). -/
def boundaryAt (s : List Char) (i : Nat) : Bool :=
  (decide (i ≠ 0) && charAtIsWord s (i - 1)) != charAtIsWord s i

/-- The literal word `w` occurs at index `i` of `s` with `\b` on both sides. -/
def wordAt (w s : List Char) (i : Nat) : Bool :=
  substrAt w s i && boundaryAt s i && boundaryAt s (i + w.length)

/-- Python `re.search(r"\b(w1|w2|...)\b", s)` is truthy: some alternative occurs
as a whole word somewhere in `s`. -/
def containsWordAny (alts : List String) (s : List Char) : Bool :=
  (List.range (s.length + 1)).any (fun i => alts.any (fun w => wordAt w.data s i))

/-- Python `str.strip()` on a character list. -/
def pyStripChars (l : List Char) : List Char :=
  ((l.dropWhile isSpacePy).reverse.dropWhile isSpacePy).reverse

/-- Python `str.strip()`. -/
def pyStrip (s : String) : String := String.mk (pyStripChars s.data)

/-! ### Achievement (hackathon) extraction — `extract_hackathon_wins` -/

/-- The fixed competition keyword list `HACKATHON_KEYWORDS` of the source. -/
def HACKATHON_KEYWORDS : List String :=
  ["hackathon", "devpost", "mlh", "challenge", "competition"]

/-- Placement tier string constants used by `extract_hackathon_wins`. -/
inductive Placement where
  | first
  | second
  | third
  | finalist
  | participant
deriving DecidableEq, Repr

/-- The `wins` tally dictionary of `extract_hackathon_wins`. -/
structure HackathonWins where
  first : Nat
  second : Nat
  third : Nat
  finalist : Nat
  participant : Nat
deriving DecidableEq, Repr

/-- Increment the tally entry of one placement tier (`wins[placement] += 1`). -/
def bumpWins (w : HackathonWins) : Placement → HackathonWins
  | .first => { w with first := w.first + 1 }
  | .second => { w with second := w.second + 1 }
  | .third => { w with third := w.third + 1 }
  | .finalist => { w with finalist := w.finalist + 1 }
  | .participant => { w with participant := w.participant + 1 }

/-- One entry of the `found` list: context snippet (truncated to 200) and tier. -/
structure HackathonFound where
  context : List Char
  placement : Placement
deriving DecidableEq, Repr

/-- Return value of `extract_hackathon_wins`. -/
structure HackathonResult where
  total_hackathons : Nat
  achievements : List HackathonFound
  wins_breakdown : HackathonWins
  hackathon_score : Nat
  has_hackathon_experience : Bool
deriving DecidableEq, Repr

/-- First-tier placement keywords: `\b(winner|1st|first|champion|gold)\b`. -/
def firstTierWords : List String := ["winner", "1st", "first", "champion", "gold"]

/-- Second-tier placement keywords: `\b(runner up|runner-up|2nd|second|silver)\b`. -/
def secondTierWords : List String := ["runner up", "runner-up", "2nd", "second", "silver"]

/-- Third-tier placement keywords: `\b(3rd|third|bronze)\b`. -/
def thirdTierWords : List String := ["3rd", "third", "bronze"]

/-- The ±120-character window around the first occurrence of keyword `kw` in the
lowered text, sliced out of the original-case text (`text[start:end]`). -/
def hackathonSnippet (text : List Char) (kw : String) : List Char :=
  let textL := text.map Char.toLower
  let idx := (findSub kw.data textL).getD 0
  let start := idx - 120
  let stop := min textL.length (idx + 120)
  (text.drop start).take (stop - start)

/-- Tier classification of one snippet: first matching placement class wins,
default `participant`. The snippet keeps the original case, the placement
regexes are lowercase and case-sensitive, exactly as in the source. -/
def snippetPlacement (snippet : List Char) : Placement :=
  if containsWordAny firstTierWords snippet then .first
  else if containsWordAny secondTierWords snippet then .second
  else if containsWordAny thirdTierWords snippet then .third
  else .participant

/-- One iteration of the `for kw in HACKATHON_KEYWORDS` loop. -/
def hackathonStep (text textL : List Char) (acc : List HackathonFound × HackathonWins)
    (kw : String) : List HackathonFound × HackathonWins :=
  if containsSub kw.data textL then
    let snippet := hackathonSnippet text kw
    let pl := snippetPlacement snippet
    (acc.1 ++ [⟨snippet.take 200, pl⟩], bumpWins acc.2 pl)
  else acc

/-- `ImprovedResumeParser.extract_hackathon_wins` (resume_parser.py, lines 264-284). -/
def extract_hackathon_wins (text : List Char) : HackathonResult :=
  let textL := text.map Char.toLower
  let fw := HACKATHON_KEYWORDS.foldl (hackathonStep text textL) ([], ⟨0, 0, 0, 0, 0⟩)
  { total_hackathons := fw.1.length
    achievements := fw.1
    wins_breakdown := fw.2
    hackathon_score :=
      fw.2.first * 10 + fw.2.second * 7 + fw.2.third * 5 + fw.2.finalist * 3 + fw.2.participant
    has_hackathon_experience := 0 < fw.1.length }

/-! ### Experience years extraction — `extract_experience_years` -/

/-- Numeric value of a decimal digit character. -/
def digitVal (c : Char) : Nat := c.toNat - '0'.toNat

/-- Matcher for the tail `\+?\s*(?:years|yrs)\s+(?:of\s+)?experience` of the
experience regex, starting right after the digits; returns the remainder of
the input after the match. Greedy/backtracking choices of Python `re` are
resolved as they are forced (each optional piece is followed by a literal a
whitespace run cannot produce). -/
def matchExpTail (t : List Char) : Option (List Char) :=
  let t1 := match t with
    | '+' :: r => r
    | _ => t
  let t2 := t1.dropWhile isSpacePy
  let t3o : Option (List Char) :=
    if startsWithChars "years".data t2 then some (t2.drop 5)
    else if startsWithChars "yrs".data t2 then some (t2.drop 3)
    else none
  match t3o with
  | none => none
  | some t3 =>
    let k := (t3.takeWhile isSpacePy).length
    if k = 0 then none
    else
      let t4 := t3.drop k
      let viaOf : Option (List Char) :=
        if startsWithChars "of".data t4 then
          let u := t4.drop 2
          let j := (u.takeWhile isSpacePy).length
          if j = 0 then none
          else
            let u2 := u.drop j
            if startsWithChars "experience".data u2 then some (u2.drop 10) else none
        else none
      match viaOf with
      | some r => some r
      | none => if startsWithChars "experience".data t4 then some (t4.drop 10) else none

/-- Attempt to match `(\d{1,2})\+?\s*(?:years|yrs)\s+(?:of\s+)?experience` at the
head of `s` (greedy: two digits tried before one); returns the captured value
and the remainder after the whole match. -/
def matchExpFrom (s : List Char) : Option (Nat × List Char) :=
  match s with
  | [] => none
  | c1 :: rest =>
    if c1.isDigit then
      match rest with
      | c2 :: rest2 =>
        if c2.isDigit then
          match matchExpTail rest2 with
          | some r => some (digitVal c1 * 10 + digitVal c2, r)
          | none =>
            match matchExpTail rest with
            | some r => some (digitVal c1, r)
            | none => none
        else
          match matchExpTail rest with
          | some r => some (digitVal c1, r)
          | none => none
      | [] => none
    else none

/-- `re.findall` scan: leftmost match, then continue after the match end.
`fuel` is a structural-recursion bound; every match consumes at least one
character, so `fuel = s.length` makes the scan total and exact. -/
def scanExpAux : Nat → List Char → List Nat
  | 0, _ => []
  | _ + 1, [] => []
  | fuel + 1, c :: rest =>
    match matchExpFrom (c :: rest) with
    | some nr => nr.1 :: scanExpAux fuel nr.2
    | none => scanExpAux fuel rest

/-- The list of captured `<N>` values of the experience regex over the lowered text. -/
def experienceMatches (text : List Char) : List Nat :=
  scanExpAux text.length (text.map Char.toLower)

/-- `ImprovedResumeParser.extract_experience_years` (resume_parser.py, lines 225-233). -/
def extract_experience_years (text : List Char) : Nat :=
  match experienceMatches text with
  | [] => 0
  | x :: xs => xs.foldl Nat.max x

/-! ### PDF text extraction with three-stage fallback — `extract_text_from_pdf` -/

/-- Which PDF library was importable at module load (`PDF_LIBRARY`):
pdfplumber is preferred, else PyPDF2, else none. -/
inductive PdfLib where
  | pdfplumber
  | pypdf2
  | nolib
deriving DecidableEq, Repr

deriving instance DecidableEq for Except

/-- Outcomes of the external decoders on the (possibly truncated) input bytes:
for each paginated library either the exception message raised by opening or
reading the document, or the `"\n".join(parts)` page-text concatenation; and
the result of the lossy UTF-8 decode of the bytes. -/
structure ExtractEnv where
  plumber : Except String String
  pypdf : Except String String
  decoded : String
deriving DecidableEq, Repr

/-- Exported size cap `MAX_PDF_BYTES` (bytes beyond it are truncated before any
decoding attempt; the `ExtractEnv` outcomes are those on the truncated bytes). -/
def MAX_PDF_BYTES : Nat := 5 * 1024 * 1024

/-- Classification of a pdfplumber exception message: the source lowers
`str(e)` and checks for the substrings `"no /root"`, `"pdfminer"`,
`"pdf structure"`. -/
def pdfminerLikeErr (msg : String) : Bool :=
  containsSub "no /root".data (msg.data.map Char.toLower) ||
  containsSub "pdfminer".data (msg.data.map Char.toLower) ||
  containsSub "pdf structure".data (msg.data.map Char.toLower)

/-- STRATEGY 3 of `extract_text_from_pdf`: the UTF-8 text fallback, accepted
only when the stripped decode is non-empty and longer than 30 characters;
otherwise total failure. -/
def extractStage3 (note : Option String) (env : ExtractEnv) : String × String × Option String :=
  let decoded := pyStrip env.decoded
  if decoded ≠ "" ∧ decoded.length > 30 then
    (decoded, "text_fallback", some (note.getD "text_fallback"))
  else ("", "none", some "no_text_extracted")

/-- STRATEGY 2 of `extract_text_from_pdf`: the PyPDF2 pass. Reached only when
PyPDF2 is the configured library (`note = none`) or pdfplumber failed with a
pdfminer-type error (`note = some "pdfminer_failed_used_fallback"`). -/
def extractStage2 (note : Option String) (env : ExtractEnv) : String × String × Option String :=
  match env.pypdf with
  | .ok raw =>
    let result := pyStrip raw
    if result ≠ "" then
      if note = some "pdfminer_failed_used_fallback" then (result, "pypdf_fallback", note)
      else (result, "PyPDF2", none)
    else extractStage3 note env
  | .error _ => extractStage3 note env

/-- `ImprovedResumeParser.extract_text_from_pdf` (resume_parser.py, lines
99-177): three-stage fallback, returning `(raw_text, parsing_library_used,
parsing_note)`. `byteLen` is `len(pdf_bytes)`; the byte content itself is
visible only through the decoder outcomes in `env`. -/
def extract_text_from_pdf (lib : PdfLib) (byteLen : Nat) (env : ExtractEnv) :
    String × String × Option String :=
  if byteLen = 0 then ("", "none", some "empty_input")
  else
    match lib with
    | .pdfplumber =>
      match env.plumber with
      | .ok raw =>
        let result := pyStrip raw
        if result ≠ "" then (result, "pdfplumber", none)
        else extractStage3 none env
      | .error e =>
        if pdfminerLikeErr e then extractStage2 (some "pdfminer_failed_used_fallback") env
        else extractStage3 none env
    | .pypdf2 => extractStage2 none env
    | .nolib => extractStage3 none env

/-! ### Contact information extraction — `extract_contact_info` -/

/-- Local-part character class of `EMAIL_RE`: `[A-Za-z0-9._%+-]`. -/
def emailLocalChar (c : Char) : Bool :=
  c.isAlphanum || c == '.' || c == '_' || c == '%' || c == '+' || c == '-'

/-- Domain character class of `EMAIL_RE`: `[A-Za-z0-9.-]`. -/
def emailDomainChar (c : Char) : Bool := c.isAlphanum || c == '.' || c == '-'

/-- Attempt `EMAIL_RE` = `\b[A-Za-z0-9._%+-]+@[A-Za-z0-9.-]+\.[A-Za-z]{2,}\b`
at index `i` of `s`; returns the length of the match. The local-part run is
forced maximal (`@` is outside the class); the domain plus quantifier
backtracks greedily over the position of the final dot; the TLD letter run is
forced maximal by the trailing `\b`. -/
def matchEmailAt (s : List Char) (i : Nat) : Option Nat :=
  if !boundaryAt s i then none
  else
    let t := s.drop i
    let l := (t.takeWhile emailLocalChar).length
    if l = 0 then none
    else
      match t.get? l with
      | some '@' =>
        let d := t.drop (l + 1)
        let m := (d.takeWhile emailDomainChar).length
        (List.range (m + 1)).reverse.findSome? (fun k =>
          if k = 0 then none
          else if d.get? k = some '.' then
            let r := ((d.drop (k + 1)).takeWhile Char.isAlpha).length
            if 2 ≤ r && boundaryAt s (i + l + 1 + k + 1 + r) then some (l + 1 + k + 1 + r)
            else none
          else none)
      | _ => none

/-- Middle character class of `PHONE_RE`: `[0-9\-\s\.\(\)]`. -/
def phoneMidChar (c : Char) : Bool :=
  c.isDigit || c == '-' || isSpacePy c || c == '.' || c == '(' || c == ')'

/-- Core of `PHONE_RE` after the optional prefix: `[0-9][0-9\-\s\.\(\)]{7,}[0-9]`
matched at the head of `u`; `off` is the length already consumed by the
prefix. The `{7,}` quantifier backtracks greedily to the last position whose
successor is a digit. -/
def matchPhoneCore (u : List Char) (off : Nat) : Option Nat :=
  match u with
  | c :: rest =>
    if c.isDigit then
      let m := (rest.takeWhile phoneMidChar).length
      (List.range (m + 1)).reverse.findSome? (fun k =>
        if k < 7 then none
        else
          match rest.get? k with
          | some d2 => if d2.isDigit then some (off + 1 + k + 1) else none
          | none => none)
    else none
  | [] => none

/-- Attempt `PHONE_RE` = `[\+\(]?[0-9][0-9\-\s\.\(\)]{7,}[0-9]` at index `i`
of `s`; returns the length of the match. When the optional prefix character
is present it must be consumed (a bare `+`/`(` cannot match `[0-9]`). -/
def matchPhoneAt (s : List Char) (i : Nat) : Option Nat :=
  match s.drop i with
  | c :: rest => if c == '+' || c == '(' then matchPhoneCore rest 1 else matchPhoneCore (c :: rest) 0
  | [] => none

/-- Handle character class of `GITHUB_RE`/`LINKEDIN_RE`: `[A-Za-z0-9_-]`. -/
def handleChar (c : Char) : Bool := c.isAlphanum || c == '_' || c == '-'

/-- Attempt `GITHUB_RE` = `github\.com/([A-Za-z0-9_-]+)` (IGNORECASE) at index
`i`: the literal is matched against the lowered text, the handle run is
maximal and must be non-empty; returns the length of `group(0)`. -/
def matchGithubAt (s sLower : List Char) (i : Nat) : Option Nat :=
  if substrAt "github.com/".data sLower i then
    let r := ((s.drop (i + 11)).takeWhile handleChar).length
    if r = 0 then none else some (11 + r)
  else none

/-- Attempt `LINKEDIN_RE` = `linkedin\.com/in/([A-Za-z0-9_-]+)` (IGNORECASE)
at index `i`; returns the length of `group(0)`. -/
def matchLinkedinAt (s sLower : List Char) (i : Nat) : Option Nat :=
  if substrAt "linkedin.com/in/".data sLower i then
    let r := ((s.drop (i + 16)).takeWhile handleChar).length
    if r = 0 then none else some (16 + r)
  else none

/-- `re.search` driver: leftmost match of the positional matcher, returning
the matched slice of the original text (`group(0)`). -/
def searchSlice (s : List Char) (matcher : Nat → Option Nat) : Option (List Char) :=
  (List.range (s.length + 1)).findSome? (fun i => (matcher i).map (fun n => (s.drop i).take n))

/-- Return value of `extract_contact_info`. -/
structure ContactInfo where
  email : Option (List Char)
  phone : Option (List Char)
  github : Option (List Char)
  linkedin : Option (List Char)
deriving DecidableEq, Repr

/-- `ImprovedResumeParser.extract_contact_info` (resume_parser.py, lines
182-192): first match of each regex; the GitHub/LinkedIn links are prefixed
with `https://`. -/
def extract_contact_info (text : List Char) : ContactInfo :=
  let lower := text.map Char.toLower
  { email := searchSlice text (matchEmailAt text)
    phone := searchSlice text (matchPhoneAt text)
    github := (searchSlice text (matchGithubAt text lower)).map (fun g => "https://".data ++ g)
    linkedin := (searchSlice text (matchLinkedinAt text lower)).map (fun g => "https://".data ++ g) }

/-! ### Name, skills, roles, education, work history extraction -/

/-- Python `str.splitlines` (ASCII line breaks `\r\n`, `\r`, `\n`); a trailing
empty segment is retained by the model, which is observationally equivalent
here because `extract_name` skips empty lines. -/
def splitLinesAux : List Char → List Char → List (List Char)
  | [], cur => [cur.reverse]
  | '\r' :: '\n' :: rest, cur => cur.reverse :: splitLinesAux rest []
  | '\r' :: rest, cur => cur.reverse :: splitLinesAux rest []
  | '\n' :: rest, cur => cur.reverse :: splitLinesAux rest []
  | c :: rest, cur => splitLinesAux rest (c :: cur)

/-- Python `str.splitlines`. -/
def splitLinesPy (l : List Char) : List (List Char) := splitLinesAux l []

/-- Python `str.split()` (whitespace runs, empties dropped). -/
def wordsAux : List Char → List Char → List (List Char)
  | [], cur => if cur = [] then [] else [cur.reverse]
  | c :: rest, cur =>
    if isSpacePy c then
      if cur = [] then wordsAux rest [] else cur.reverse :: wordsAux rest []
    else wordsAux rest (c :: cur)

/-- Python `str.split()`. -/
def pyWords (l : List Char) : List (List Char) := wordsAux l []

/-- Character class of the name line pattern `^[A-Za-z .'\-]{2,}$`. -/
def nameChar (c : Char) : Bool :=
  c.isAlpha || c == ' ' || c == '.' || c == '\'' || c == '-'

/-- Section-header keywords skipped by `extract_name`. -/
def sectionWords : List String :=
  ["skills", "experience", "education", "projects", "summary", "contact"]

/-- `ImprovedResumeParser.extract_name` (resume_parser.py, lines 194-205):
first stripped non-empty line that is not a section header, has 2-4 words
and fully matches the name character pattern. -/
def extract_name (text : List Char) : Option (List Char) :=
  (splitLinesPy text).findSome? (fun line0 =>
    let line := pyStripChars line0
    if line = [] then none
    else
      let low := line.map Char.toLower
      if sectionWords.any (fun w => containsSub w.data low) then none
      else if 2 ≤ (pyWords line).length ∧ (pyWords line).length ≤ 4 ∧
              2 ≤ line.length ∧ line.all nameChar then some line
      else none)

/-- The inverted synonym table `_skill_syn` in its Python construction order:
`(synonym, canonical, category)`. -/
def SKILL_SYNONYMS : List (String × String × String) :=
  [("react", "react", "frontend"), ("reactjs", "react", "frontend"),
   ("react.js", "react", "frontend"),
   ("javascript", "javascript", "frontend"), ("js", "javascript", "frontend"),
   ("html", "html", "frontend"), ("html5", "html", "frontend"),
   ("css", "css", "frontend"), ("scss", "css", "frontend"), ("sass", "css", "frontend"),
   ("tailwind", "tailwind", "frontend"), ("tailwindcss", "tailwind", "frontend"),
   ("python", "python", "backend"), ("python3", "python", "backend"),
   ("fastapi", "fastapi", "backend"), ("fast api", "fastapi", "backend"),
   ("flask", "flask", "backend"),
   ("node", "nodejs", "backend"), ("nodejs", "nodejs", "backend"),
   ("node.js", "nodejs", "backend"),
   ("express", "express", "backend"), ("expressjs", "express", "backend"),
   ("java", "java", "backend"),
   ("c#", "csharp", "backend"), ("csharp", "csharp", "backend"), (".net", "csharp", "backend"),
   ("pytorch", "pytorch", "ml_ai"), ("torch", "pytorch", "ml_ai"),
   ("tensorflow", "tensorflow", "ml_ai"), ("tf", "tensorflow", "ml_ai"),
   ("keras", "tensorflow", "ml_ai"),
   ("scikit-learn", "sklearn", "ml_ai"), ("sklearn", "sklearn", "ml_ai"),
   ("nlp", "nlp", "ml_ai"), ("natural language processing", "nlp", "ml_ai"),
   ("computer vision", "cv", "ml_ai"), ("opencv", "cv", "ml_ai"), ("cv", "cv", "ml_ai"),
   ("transformers", "transformers", "ml_ai"), ("bert", "transformers", "ml_ai"),
   ("gpt", "transformers", "ml_ai"), ("llm", "transformers", "ml_ai"),
   ("sql", "sql", "data"), ("mysql", "sql", "data"),
   ("postgres", "sql", "data"), ("postgresql", "sql", "data"),
   ("pandas", "pandas", "data"), ("numpy", "numpy", "data"),
   ("mongo", "mongodb", "data"), ("mongodb", "mongodb", "data"),
   ("elasticsearch", "elasticsearch", "data"), ("elastic", "elasticsearch", "data"),
   ("docker", "docker", "devops"), ("dockerfile", "docker", "devops"),
   ("kubernetes", "kubernetes", "devops"), ("k8s", "kubernetes", "devops"),
   ("aws", "aws", "devops"), ("amazon web services", "aws", "devops"),
   ("ec2", "aws", "devops"), ("s3", "aws", "devops")]

/-- Ascending stable sort of strings (Python `sorted`). -/
def sortStrings (l : List String) : List String := l.insertionSort (· ≤ ·)

/-- One `found[cat].add(canonical)` step over an insertion-ordered association
list of per-category hit lists. -/
def addSkillHit (acc : List (String × List String)) (cat canon : String) :
    List (String × List String) :=
  if (acc.map Prod.fst).contains cat then
    acc.map (fun e =>
      if e.1 = cat then (e.1, if e.2.contains canon then e.2 else e.2 ++ [canon]) else e)
  else acc ++ [(cat, [canon])]

/-- `ImprovedResumeParser.extract_skills` (resume_parser.py, lines 207-213):
whole-word search of every synonym in the lowered text; hits grouped per
category (first-hit category order) with canonical names deduplicated and
finally sorted. -/
def extract_skills (text : List Char) : List (String × List String) :=
  let lower := text.map Char.toLower
  let grouped := SKILL_SYNONYMS.foldl (fun acc t =>
    if containsWordAny [t.1] lower then addSkillHit acc t.2.2 t.2.1 else acc) []
  grouped.map (fun e => (e.1, sortStrings e.2))

/-- The flattened `all_skills` set of `parse_resume`: sorted deduplicated
union of the per-category canonical lists. -/
def allSkillsOf (groups : List (String × List String)) : List String :=
  sortStrings ((groups.map Prod.snd).flatten.dedup)

/-- The fixed role→substring-pattern table `ROLE_PATTERNS`. -/
def ROLE_PATTERNS : List (String × List String) :=
  [("frontend", ["frontend", "front end", "front-end", "ui developer"]),
   ("backend", ["backend", "backend engineer", "api developer"]),
   ("fullstack", ["fullstack", "full-stack", "full stack"]),
   ("ml_engineer", ["machine learning", "ml engineer", "data scientist"]),
   ("devops", ["devops", "sre", "site reliability"])]

/-- `ImprovedResumeParser.extract_roles` (resume_parser.py, lines 215-223). -/
def extract_roles (text : List Char) : List String :=
  let lower := text.map Char.toLower
  sortStrings ((ROLE_PATTERNS.filter (fun rp => rp.2.any (fun p => containsSub p.data lower))).map
    Prod.fst)

/-- The degree patterns of `extract_education`, expanded to their literal
alternatives: `b(?:\.tech|\.?tech|achelor)` etc., applied case-insensitively. -/
def EDUCATION_PATTERNS : List (List String × String) :=
  [(["b.tech", "btech", "bachelor"], "Bachelor"),
   (["m.tech", "mtech", "master"], "Master"),
   (["phd", "ph.d."], "PhD")]

/-- `ImprovedResumeParser.extract_education` (resume_parser.py, lines 235-246):
one `(degree, "Unknown")` record per tier whose pattern occurs in the text. -/
def extract_education (text : List Char) : List (String × String) :=
  let lower := text.map Char.toLower
  (EDUCATION_PATTERNS.filter (fun p => p.1.any (fun q => containsSub q.data lower))).map
    (fun p => (p.2, "Unknown"))

/-- Company-name character class of the work-experience regex:
`[A-Za-z0-9 &\.\-]`. -/
def companyChar (c : Char) : Bool :=
  c.isAlphanum || c == ' ' || c == '&' || c == '.' || c == '-'

/-- Attempt `(?:at|@)\s+([A-Z][A-Za-z0-9 &\.\-]{2,50})` at the head of `s`;
returns `group(1)` and the remainder after the whole match. The `{2,50}` run
is greedy-maximal capped at 50 and must reach length 2. -/
def matchCompanyFrom (s : List Char) : Option (List Char × List Char) :=
  let core : List Char → Option (List Char × List Char) := fun rest =>
    let ws := (rest.takeWhile isSpacePy).length
    if ws = 0 then none
    else
      match rest.drop ws with
      | c :: u2 =>
        if c.isUpper then
          let run := (u2.takeWhile companyChar).length
          let cnt := min run 50
          if 2 ≤ cnt then some (c :: u2.take cnt, u2.drop cnt) else none
        else none
      | [] => none
  match s with
  | 'a' :: 't' :: rest => core rest
  | '@' :: rest => core rest
  | _ => none

/-- `re.finditer` scan for the company pattern (leftmost, non-overlapping);
`fuel = s.length` suffices since every match consumes characters. -/
def scanCompaniesAux : Nat → List Char → List (List Char)
  | 0, _ => []
  | _ + 1, [] => []
  | fuel + 1, c :: rest =>
    match matchCompanyFrom (c :: rest) with
    | some gr => gr.1 :: scanCompaniesAux fuel gr.2
    | none => scanCompaniesAux fuel rest

/-- `ImprovedResumeParser.extract_work_experience` (resume_parser.py, lines
248-262): stripped captures, deduplicated case-insensitively preserving
first-seen order, capped at 5. -/
def extract_work_experience (text : List Char) : List (List Char) :=
  let raw := (scanCompaniesAux text.length text).map pyStripChars
  (raw.foldl (fun acc n =>
    if acc.any (fun x => x.map Char.toLower = n.map Char.toLower) then acc
    else acc ++ [n]) []).take 5

/-! ### Resume parse entry point — `parse_resume` -/

/-- Structured profile assembled by `parse_resume` on success (the result
dictionary of resume_parser.py, lines 334-352). -/
structure ResumeProfile where
  name : List Char
  contact : ContactInfo
  skills_by_category : List (String × List String)
  all_skills : List String
  roles : List String
  experience_years : Nat
  education : List (String × String)
  work_experience : List (List Char)
  hackathons : HackathonResult
  raw_text_preview : List Char
  raw_text : List Char
  total_text_length : Nat
  parsing_library : String
  parsing_note : Option String
deriving DecidableEq, Repr

/-- Result of `parse_resume`: either the structured-failure dictionary
`{error, raw_text, parsing_library, parsing_note}` or a full profile. -/
inductive ParseResult where
  | failure (errorMsg : String) (raw_text : List Char) (parsing_library : String)
      (parsing_note : Option String)
  | profile (p : ResumeProfile)
deriving DecidableEq, Repr

/-- The raw-text acquisition step of `parse_resume` (lines 300-306): run PDF
extraction when `pdf_bytes` is truthy, then fall back to the `text` argument
when extraction produced nothing; returns `(raw_text, parsing_library,
parsing_note)` before stripping. -/
def resumeRawInput (lib : PdfLib) (byteLen : Nat) (env : ExtractEnv)
    (textArg : Option String) : String × String × Option String :=
  let e0 : String × String × Option String :=
    if byteLen ≠ 0 then extract_text_from_pdf lib byteLen env else ("", "none", none)
  if e0.1 = "" then
    match textArg with
    | some t => if t ≠ "" then (t, "text_input", e0.2.2) else e0
    | none => e0
  else e0

/-- Field extraction over accepted raw text (the body of `parse_resume` after
the threshold gate, lines 324-352). -/
def buildResumeFields (raw : List Char) (lib : String) (note : Option String) : ResumeProfile :=
  let groups := extract_skills raw
  { name := (extract_name raw).getD []
    contact := extract_contact_info raw
    skills_by_category := groups
    all_skills := allSkillsOf groups
    roles := extract_roles raw
    experience_years := extract_experience_years raw
    education := extract_education raw
    work_experience := extract_work_experience raw
    hackathons := extract_hackathon_wins raw
    raw_text_preview := raw.take 500
    raw_text := raw
    total_text_length := raw.length
    parsing_library := lib
    parsing_note := note }

/-- `ImprovedResumeParser.parse_resume` (resume_parser.py, lines 289-354):
stripped text that is empty or shorter than 40 characters yields the
structured failure with a 500-character preview; otherwise all field
extractors run. -/
def parse_resume (lib : PdfLib) (byteLen : Nat) (env : ExtractEnv)
    (textArg : Option String) : ParseResult :=
  let t := resumeRawInput lib byteLen env textArg
  let raw := pyStrip t.1
  if raw = "" ∨ raw.length < 40 then
    .failure "No meaningful text to parse" (raw.data.take 500) t.2.1 t.2.2
  else .profile (buildResumeFields raw.data t.2.1 t.2.2)

/-! ### Embedding engine — `cosine_similarity` -/

/-- NumPy `np.dot` on two equal-length float vectors. -/
def dotList (a b : List ℚ) : ℚ := (a.zipWith (· * ·) b).sum

/-- Squared Euclidean magnitude; `np.linalg.norm v = sqrt (normSq v)`. -/
def normSq (a : List ℚ) : ℚ := (a.map (fun x => x * x)).sum

/-- The property of IEEE floating square root the claims rely on: `sqrt` of a
nonnegative float is zero exactly for zero. -/
def SqrtSpec (sq : ℚ → ℚ) : Prop := ∀ x : ℚ, 0 ≤ x → (sq x = 0 ↔ x = 0)

/-- `EmbeddingEngine.cosine_similarity` (embedding_engine.py, lines 227-243):
guard on zero norms, else dot product over the product of norms. `sq` is the
square-root oracle of the modelling conventions. -/
def cosine_similarity (sq : ℚ → ℚ) (vec1 vec2 : List ℚ) : ℚ :=
  let dot_product := dotList vec1 vec2
  let norm1 := sq (normSq vec1)
  let norm2 := sq (normSq vec2)
  if norm1 = 0 ∨ norm2 = 0 then 0
  else dot_product / (norm1 * norm2)

/-! ### Matching engine — `matching_engine.py` -/

/-- `normalize_skill` (matching_engine.py, lines 10-12): lower, strip, then
remove periods, spaces, hyphens and underscores (`str.replace(c, "")` for a
single-character pattern removes every occurrence of `c`). -/
def normalize_skill (skill : String) : String :=
  String.mk (((((pyStripChars (skill.data.map Char.toLower)).filter (fun c => c != '.')).filter
    (fun c => c != ' ')).filter (fun c => c != '-')).filter (fun c => c != '_'))

/-- The tunable weight table `MatchingEngine.WEIGHTS` (lines 40-47). -/
structure WeightsTable where
  skill_overlap : ℚ
  embedding_similarity : ℚ
  role_match : ℚ
  experience_fit : ℚ
  hackathon_bonus : ℚ
  availability : ℚ

/-- The concrete weights of the source. -/
def WEIGHTS : WeightsTable :=
  { skill_overlap := 45/100
    embedding_similarity := 25/100
    role_match := 15/100
    experience_fit := 6/100
    hackathon_bonus := 5/100
    availability := 4/100 }

/-- `MatchingEngine.calculate_skill_overlap` (lines 73-93). The Python dicts
keyed by normalized skill are modelled by the finite sets of normalized keys;
the shared/complementary lists carry one entry per normalized key (the source
maps each key back to one original spelling; only the key sets and their
cardinalities are observable downstream). -/
def calculate_skill_overlap (user_skills required_skills : List String) :
    ℚ × Finset String × Finset String :=
  if required_skills = [] then (1/2, ∅, ∅)
  else
    let userKeys := (user_skills.map normalize_skill).toFinset
    let reqKeys := (required_skills.map normalize_skill).toFinset
    let shared := userKeys ∩ reqKeys
    let comp := userKeys \ reqKeys
    let ratio : ℚ := (shared.card : ℚ) / (reqKeys.card : ℚ)
    let bonus : ℚ := min ((comp.card : ℚ) * (5/100)) (2/10)
    (min (ratio + bonus) 1, shared, comp)

/-- `MatchingEngine.calculate_role_match` (lines 59-67). -/
def calculate_role_match (user_roles required_roles : List String) : ℚ × Finset String :=
  if required_roles = [] then (1, ∅)
  else
    let user_set := (user_roles.map String.toLower).toFinset
    let req_set := (required_roles.map String.toLower).toFinset
    let matched := user_set ∩ req_set
    ((if req_set ≠ ∅ then (matched.card : ℚ) / (req_set.card : ℚ) else 0), matched)

/-- `MatchingEngine.calculate_experience_fit` (lines 95-103). -/
def calculate_experience_fit (user_exp required_exp_min required_exp_max : ℤ) : ℚ :=
  if user_exp < required_exp_min then
    max (1/2) (1 - ((required_exp_min - user_exp : ℤ) : ℚ) * (15/100))
  else if user_exp > required_exp_max then
    max (7/10) (1 - ((user_exp - required_exp_max : ℤ) : ℚ) * (5/100))
  else 1

/-- `MatchingEngine.calculate_availability_score` (lines 105-109). -/
def calculate_availability_score (user_tz project_tz : String) : ℚ :=
  if user_tz = "" ∨ project_tz = "" then 1
  else if user_tz = project_tz then 1 else 4/5

/-- `MatchingEngine.calculate_embedding_score` (lines 50-57): 0.0 for a
missing side, else the engine's cosine similarity (the `try/except` absorbs
only exceptions the total model cannot raise). -/
def calculate_embedding_score (sq : ℚ → ℚ) (emb1 emb2 : Option (List ℚ)) : ℚ :=
  match emb1, emb2 with
  | some v1, some v2 => cosine_similarity sq v1 v2
  | _, _ => 0

/-- Python truthiness of a stored embedding: present and non-empty. -/
def embTruthy : Option (List ℚ) → Bool
  | some l => !l.isEmpty
  | none => false

/-- Subject side of a match (`user_data` dict): the fields
`match_user_to_project` reads, plus the resume-derived hackathon data the
dict may carry, which the engine never reads. -/
structure UserData where
  skills : List String
  embedding : Option (List ℚ)
  roles : List String
  experience_years : ℤ
  timezone : String
  hackathons : Option HackathonResult

/-- Target side of a match (`project_data` dict with its `.get` defaults). -/
structure ProjectData where
  id : String
  required_skills : List String
  embedding : Option (List ℚ)
  required_roles : List String
  min_experience : ℤ
  max_experience : ℤ
  timezone : String

/-- The `Match` dataclass (lines 15-32); `shared_skills` and
`complementary_skills` as normalized-key sets (see
`calculate_skill_overlap`). -/
structure Match where
  target_id : String
  score : ℚ
  reasons : List String
  shared_skills : Finset String
  complementary_skills : Finset String
deriving DecidableEq

/-- The embedding sub-score of `match_user_to_project` (lines 121-123):
cosine similarity when both embeddings are truthy, else the neutral 0.5. -/
def embeddingSubScore (sq : ℚ → ℚ) (u : UserData) (p : ProjectData) : ℚ :=
  if embTruthy u.embedding && embTruthy p.embedding then
    calculate_embedding_score sq u.embedding p.embedding
  else 1/2

/-- The explanation list of `match_user_to_project` (lines 159-172); numeric
and list payload formatting inside the sentences is abbreviated, the
conditions and the order of the appends are the source's. -/
def matchReasons (shared_count required_count comp_count : Nat) (matched_roles : Finset String)
    (emb_score : ℚ) : List String :=
  (if 0 < shared_count then
    [toString shared_count ++ "/" ++ toString required_count ++ " required skills matched"]
   else []) ++
  (if (shared_count : ℚ) ≥ max 1 ((required_count : ℚ) * (8/10)) then ["Strong skill match!"]
   else []) ++
  (if matched_roles ≠ ∅ then ["Role fit"] else []) ++
  (if 3 ≤ comp_count then ["+" ++ toString comp_count ++ " bonus skills"] else []) ++
  (if emb_score > 7/10 then ["Profile similarity"] else [])

/-- `MatchingEngine.match_user_to_project` (lines 112-180): the five weighted
sub-scores, the additive shared-skill boost and the clamp to `[0,1]`. -/
def match_user_to_project (sq : ℚ → ℚ) (u : UserData) (p : ProjectData) : Match :=
  let sk := calculate_skill_overlap u.skills p.required_skills
  let emb_score := embeddingSubScore sq u p
  let rm := calculate_role_match u.roles p.required_roles
  let exp_score := calculate_experience_fit u.experience_years p.min_experience p.max_experience
  let avail_score := calculate_availability_score u.timezone p.timezone
  let base :=
    sk.1 * WEIGHTS.skill_overlap + emb_score * WEIGHTS.embedding_similarity +
    rm.1 * WEIGHTS.role_match + exp_score * WEIGHTS.experience_fit +
    avail_score * WEIGHTS.availability
  let final_score := max 0 (min 1 (base + min ((sk.2.1.card : ℚ) * (2/100)) (12/100)))
  { target_id := p.id
    score := final_score
    reasons := matchReasons sk.2.1.card p.required_skills.length sk.2.2.card rm.2 emb_score
    shared_skills := sk.2.1
    complementary_skills := sk.2.2 }

/-- The sort order of `rank_candidates` (line 193): Python's stable ascending
sort on the key `(score, shared count)` followed by `reverse=True`, i.e. the
stable descending lexicographic order. `rankRel a b` holds when `a` may come
before `b`. -/
def rankRel (m1 m2 : Match) : Prop :=
  m2.score < m1.score ∨ (m1.score = m2.score ∧ m2.shared_skills.card ≤ m1.shared_skills.card)

instance : DecidableRel rankRel := fun m1 m2 =>
  inferInstanceAs (Decidable (m2.score < m1.score ∨
    (m1.score = m2.score ∧ m2.shared_skills.card ≤ m1.shared_skills.card)))

instance : IsTotal Match rankRel := by
  constructor
  intro a b
  rcases lt_trichotomy a.score b.score with h | h | h
  · exact Or.inr (Or.inl h)
  · rcases Nat.le_total b.shared_skills.card a.shared_skills.card with hc | hc
    · exact Or.inl (Or.inr ⟨h, hc⟩)
    · exact Or.inr (Or.inr ⟨h.symm, hc⟩)
  · exact Or.inl (Or.inl h)

instance : IsTrans Match rankRel := by
  constructor
  intro a b c hab hbc
  rcases hab with h1 | ⟨e1, l1⟩
  · rcases hbc with h2 | ⟨e2, _⟩
    · exact Or.inl (h2.trans h1)
    · exact Or.inl (e2 ▸ h1)
  · rcases hbc with h2 | ⟨e2, l2⟩
    · exact Or.inl (e1 ▸ h2)
    · exact Or.inr ⟨e1.trans e2, l2.trans l1⟩

/-- The stable descending sort step of `rank_candidates`. -/
def sortMatches (ms : List Match) : List Match := ms.insertionSort rankRel

/-- `MatchingEngine.rank_candidates` (lines 183-194): score every candidate,
stable-sort by `(score, shared count)` descending, truncate to `top_k`. -/
def rank_candidates (sq : ℚ → ℚ) (candidates : List UserData) (project_data : ProjectData)
    (top_k : Nat) : List Match :=
  (sortMatches (candidates.map (fun c => match_user_to_project sq c project_data))).take top_k

/-! ### Helper definitions for theorem statements and witnesses -/

/-- The competition keywords present in a text (one hit per keyword, as in the
source loop). -/
def hackathonHits (text : List Char) : List String :=
  HACKATHON_KEYWORDS.filter (fun kw => containsSub kw.data (text.map Char.toLower))

/-- A square-root stand-in satisfying `SqrtSpec`, for concrete witnesses. -/
def sqrtToy : ℚ → ℚ := fun x => if x = 0 then 0 else 1

/-- A concrete subject for witnesses. -/
def exampleUser : UserData :=
  { skills := ["python"], embedding := none, roles := [], experience_years := 0,
    timezone := "", hackathons := none }

/-- A concrete target for witnesses. -/
def exampleProject : ProjectData :=
  { id := "p1", required_skills := ["python"], embedding := none, required_roles := [],
    min_experience := 0, max_experience := 10, timezone := "" }

/-- Decoder outcomes where pdfplumber raises a pdfminer-type error, PyPDF2
raises, and the lossy decode is 43 characters long. -/
def envFallbackLong : ExtractEnv :=
  { plumber := .error "pdfminer failed to open stream",
    pypdf := .error "EOF marker not found",
    decoded := "this stripped decode has length over thirty" }

/-- Decoder outcomes where pdfplumber raises a pdfminer-type error, PyPDF2
raises, and the lossy decode is exactly 30 characters long. -/
def envFallback30 : ExtractEnv :=
  { plumber := .error "no /root object found",
    pypdf := .error "EOF marker not found",
    decoded := "abcdefghijklmnopqrstuvwxyz0123" }

/-! ### Theorems -/

/-- C1: for every subject/target pair, the score returned by
`match_user_to_project` equals the weighted sum of the five sub-scores
(skill overlap × 0.45, embedding similarity × 0.25, role match × 0.15,
experience fit × 0.06, availability × 0.04), plus an additive boost of
`min(|shared_skills| × 0.02, 0.12)`, clamped to `[0,1]`; in particular
`0.0 ≤ score ≤ 1.0` for all valid inputs. -/
theorem c1_final_score_formula_and_bounds (sq : ℚ → ℚ) (u : UserData) (p : ProjectData) :
    (match_user_to_project sq u p).score =
      max 0 (min 1
        ((calculate_skill_overlap u.skills p.required_skills).1 * (45/100) +
         embeddingSubScore sq u p * (25/100) +
         (calculate_role_match u.roles p.required_roles).1 * (15/100) +
         calculate_experience_fit u.experience_years p.min_experience p.max_experience * (6/100) +
         calculate_availability_score u.timezone p.timezone * (4/100) +
         min (((calculate_skill_overlap u.skills p.required_skills).2.1.card : ℚ) * (2/100))
           (12/100))) ∧
    0 ≤ (match_user_to_project sq u p).score ∧ (match_user_to_project sq u p).score ≤ 1 := by
  refine ⟨rfl, le_max_left _ _, ?_⟩
  exact max_le (by norm_num) (min_le_left _ _)

/-- C2: if the target's required skills are empty the skill sub-score is
exactly 0.5 with empty shared and complementary sets, regardless of the
subject's skills; otherwise the sub-score equals
`min(|shared normalized keys| / |normalized required set| +
min(|subject-only normalized keys| × 0.05, 0.2), 1.0)`, with normalization
given by `normalize_skill`. -/
theorem c2_skill_overlap_formula (user_skills required_skills : List String) :
    (required_skills = [] →
      calculate_skill_overlap user_skills required_skills = (1/2, ∅, ∅)) ∧
    (required_skills ≠ [] →
      (calculate_skill_overlap user_skills required_skills).1 =
        min ((((user_skills.map normalize_skill).toFinset ∩
                (required_skills.map normalize_skill).toFinset).card : ℚ) /
              (((required_skills.map normalize_skill).toFinset).card : ℚ) +
             min ((((user_skills.map normalize_skill).toFinset \
                     (required_skills.map normalize_skill).toFinset).card : ℚ) * (5/100))
               (2/10))
          1) := by
  constructor
  · intro h
    simp [calculate_skill_overlap, h]
  · intro h
    simp [calculate_skill_overlap, h]

/-- Witness for C2 at concrete inputs: an empty requirement list yields the
neutral 0.5 with empty sets, and a normalized one-of-two overlap yields 1/2. -/
theorem c2_skill_overlap_witness :
    calculate_skill_overlap ["python"] [] = (1/2, ∅, ∅) ∧
    (calculate_skill_overlap ["Node.JS"] ["node-js", "sql"]).1 = 1/2 := by
  refine ⟨(c2_skill_overlap_formula ["python"] []).1 rfl, ?_⟩
  rw [(c2_skill_overlap_formula ["Node.JS"] ["node-js", "sql"]).2 (by decide)]
  have h1 : ((List.map normalize_skill ["Node.JS"]).toFinset ∩
      (List.map normalize_skill ["node-js", "sql"]).toFinset).card = 1 := by decide
  have h2 : (List.map normalize_skill ["node-js", "sql"]).toFinset.card = 2 := by decide
  have h3 : ((List.map normalize_skill ["Node.JS"]).toFinset \
      (List.map normalize_skill ["node-js", "sql"]).toFinset).card = 0 := by decide
  rw [h1, h2, h3]
  norm_num

/-- C9: `cosine_similarity` returns exactly 0 whenever either input vector
has zero magnitude (no division is performed: the guard fires), and for all
other pairs returns the dot product divided by the product of the two norms,
a division whose divisor is then provably non-zero. -/
theorem c9_cosine_zero_magnitude_guard (sq : ℚ → ℚ) (a b : List ℚ)
    (hsq : SqrtSpec sq) (_hlen : a.length = b.length) :
    ((normSq a = 0 ∨ normSq b = 0) → cosine_similarity sq a b = 0) ∧
    (¬(normSq a = 0 ∨ normSq b = 0) →
      sq (normSq a) * sq (normSq b) ≠ 0 ∧
      cosine_similarity sq a b = dotList a b / (sq (normSq a) * sq (normSq b))) := by
  have hna : 0 ≤ normSq a := List.sum_nonneg (by
    intro x hx
    obtain ⟨y, _, rfl⟩ := List.mem_map.mp hx
    exact mul_self_nonneg y)
  have hnb : 0 ≤ normSq b := List.sum_nonneg (by
    intro x hx
    obtain ⟨y, _, rfl⟩ := List.mem_map.mp hx
    exact mul_self_nonneg y)
  constructor
  · intro h
    have hz : sq (normSq a) = 0 ∨ sq (normSq b) = 0 := by
      rcases h with h | h
      · exact Or.inl ((hsq _ hna).mpr h)
      · exact Or.inr ((hsq _ hnb).mpr h)
    unfold cosine_similarity
    rw [if_pos hz]
  · intro h
    push_neg at h
    have h1 : sq (normSq a) ≠ 0 := fun hz => h.1 ((hsq _ hna).mp hz)
    have h2 : sq (normSq b) ≠ 0 := fun hz => h.2 ((hsq _ hnb).mp hz)
    refine ⟨mul_ne_zero h1 h2, ?_⟩
    unfold cosine_similarity
    rw [if_neg (by push_neg; exact ⟨h1, h2⟩)]

/-- Witness for C9: a zero vector yields similarity exactly 0, and a sanity
evaluation on non-degenerate vectors takes the division branch. -/
theorem c9_cosine_witness :
    cosine_similarity sqrtToy [0, 0] [1, 2] = 0 ∧ cosine_similarity sqrtToy [1] [1] = 1 := by
  have hs : SqrtSpec sqrtToy := by
    intro x hx
    by_cases hz : x = 0 <;> simp [sqrtToy, hz]
  have h1 := (c9_cosine_zero_magnitude_guard sqrtToy [0, 0] [1, 2] hs rfl).1
    (Or.inl (by norm_num [normSq]))
  have h2 := (c9_cosine_zero_magnitude_guard sqrtToy [1] [1] hs rfl).2
    (by norm_num [normSq])
  refine ⟨h1, ?_⟩
  rw [h2.2]
  norm_num [dotList, normSq, sqrtToy]

/-- C10: the match score is independent of the subject's hackathon data; the
`WEIGHTS` table defines a `hackathon_bonus` weight of 0.05 that
`match_user_to_project` never applies, the five used weights sum to 0.95, and
the weighted sum before the shared-skill boost is at most 0.95 whenever the
five used sub-scores lie in `[0,1]`. -/
theorem c10_hackathon_weight_unused (sq : ℚ → ℚ) (u : UserData) (h : Option HackathonResult)
    (p : ProjectData) (s e r x a : ℚ)
    (hs : 0 ≤ s ∧ s ≤ 1) (he : 0 ≤ e ∧ e ≤ 1) (hr : 0 ≤ r ∧ r ≤ 1)
    (hx : 0 ≤ x ∧ x ≤ 1) (ha : 0 ≤ a ∧ a ≤ 1) :
    (match_user_to_project sq { u with hackathons := h } p).score =
      (match_user_to_project sq u p).score ∧
    WEIGHTS.hackathon_bonus = 5/100 ∧
    WEIGHTS.skill_overlap + WEIGHTS.embedding_similarity + WEIGHTS.role_match +
      WEIGHTS.experience_fit + WEIGHTS.availability = 95/100 ∧
    s * WEIGHTS.skill_overlap + e * WEIGHTS.embedding_similarity + r * WEIGHTS.role_match +
      x * WEIGHTS.experience_fit + a * WEIGHTS.availability ≤ 95/100 := by
  refine ⟨?_, rfl, by norm_num [WEIGHTS], ?_⟩
  · cases u
    rfl
  · simp only [WEIGHTS]
    linarith [hs.1, hs.2, he.1, he.2, hr.1, hr.2, hx.1, hx.2, ha.1, ha.2]

/-- Witness for C10 at concrete inputs: adding hackathon data to a concrete
subject leaves the score unchanged, and the all-ones weighted sum is ≤ 0.95. -/
theorem c10_hackathon_witness :
    (match_user_to_project sqrtToy
        { exampleUser with
            hackathons := some (extract_hackathon_wins "won the hackathon".data) }
        exampleProject).score =
      (match_user_to_project sqrtToy exampleUser exampleProject).score ∧
    (1 : ℚ) * WEIGHTS.skill_overlap + 1 * WEIGHTS.embedding_similarity + 1 * WEIGHTS.role_match +
      1 * WEIGHTS.experience_fit + 1 * WEIGHTS.availability ≤ 95/100 := by
  have h := c10_hackathon_weight_unused sqrtToy exampleUser
    (some (extract_hackathon_wins "won the hackathon".data)) exampleProject 1 1 1 1 1
    ⟨by norm_num, by norm_num⟩ ⟨by norm_num, by norm_num⟩ ⟨by norm_num, by norm_num⟩
    ⟨by norm_num, by norm_num⟩ ⟨by norm_num, by norm_num⟩
  exact ⟨h.1, h.2.2.2⟩

/-- A string of length greater than 30 is non-empty. -/
theorem long_ne_empty {s : String} (h : 30 < s.length) : s ≠ "" := by
  intro he
  rw [he] at h
  simp [String.length] at h

/-- Tag disequalities used throughout the extraction proofs. -/
theorem tag_tf_ne_none : ("text_fallback" : String) ≠ "none" := by decide

/-- The pypdf fallback tag differs from the total-failure tag. -/
theorem tag_pf_ne_none : ("pypdf_fallback" : String) ≠ "none" := by decide

/-- The PyPDF2 tag differs from the total-failure tag. -/
theorem tag_py_ne_none : ("PyPDF2" : String) ≠ "none" := by decide

/-- The pdfplumber tag differs from the total-failure tag. -/
theorem tag_pp_ne_none : ("pdfplumber" : String) ≠ "none" := by decide

/-- The pypdf fallback tag differs from the text fallback tag. -/
theorem tag_pf_ne_tf : ("pypdf_fallback" : String) ≠ "text_fallback" := by decide

/-- The PyPDF2 tag differs from the text fallback tag. -/
theorem tag_py_ne_tf : ("PyPDF2" : String) ≠ "text_fallback" := by decide

/-- The pdfplumber tag differs from the text fallback tag. -/
theorem tag_pp_ne_tf : ("pdfplumber" : String) ≠ "text_fallback" := by decide

/-- The total-failure tag differs from the text fallback tag. -/
theorem tag_none_ne_tf : ("none" : String) ≠ "text_fallback" := by decide

/-- The text fallback tag differs from the pdfplumber tag. -/
theorem tag_tf_ne_pp : ("text_fallback" : String) ≠ "pdfplumber" := by decide

/-- Stage 3 invariant: the source tag is `none` exactly when no text came back. -/
theorem extractStage3_none_iff (note : Option String) (env : ExtractEnv) :
    ((extractStage3 note env).2.1 = "none" ↔ (extractStage3 note env).1 = "") := by
  simp only [extractStage3]
  split_ifs with h
  · exact ⟨fun hx => absurd hx tag_tf_ne_none, fun hx => absurd hx h.1⟩
  · exact ⟨fun _ => rfl, fun _ => rfl⟩

/-- Stage 2 invariant: the source tag is `none` exactly when no text came back. -/
theorem extractStage2_none_iff (note : Option String) (env : ExtractEnv) :
    ((extractStage2 note env).2.1 = "none" ↔ (extractStage2 note env).1 = "") := by
  obtain ⟨pl, py, dec⟩ := env
  cases py with
  | ok raw =>
    simp only [extractStage2]
    by_cases h1 : pyStrip raw ≠ ""
    · rw [if_pos h1]
      split_ifs with h2
      · exact ⟨fun hx => absurd hx tag_pf_ne_none, fun hx => absurd hx h1⟩
      · exact ⟨fun hx => absurd hx tag_py_ne_none, fun hx => absurd hx h1⟩
    · rw [if_neg h1]
      exact extractStage3_none_iff note _
  | error e =>
    simp only [extractStage2]
    exact extractStage3_none_iff note _

/-- Stage 3 with a stripped decode longer than 30 characters returns it with
the `text_fallback` tag. -/
theorem extractStage3_long (note : Option String) (env : ExtractEnv)
    (h : 30 < (pyStrip env.decoded).length) :
    extractStage3 note env =
      (pyStrip env.decoded, "text_fallback", some (note.getD "text_fallback")) := by
  simp only [extractStage3]
  rw [if_pos ⟨long_ne_empty h, h⟩]

/-- Stage 3 yields the `text_fallback` tag only past the strict 30-character
threshold. -/
theorem extractStage3_src_long (note : Option String) (env : ExtractEnv) :
    (extractStage3 note env).2.1 = "text_fallback" → 30 < (pyStrip env.decoded).length := by
  simp only [extractStage3]
  split_ifs with hc
  · exact fun _ => hc.2
  · exact fun hx => absurd hx (by decide)

/-- Stage 2 entered with the pdfminer note and a long decode always produces
non-empty text tagged `pypdf_fallback` or `text_fallback`. -/
theorem extractStage2_long (env : ExtractEnv) (h : 30 < (pyStrip env.decoded).length) :
    (extractStage2 (some "pdfminer_failed_used_fallback") env).1 ≠ "" ∧
    ((extractStage2 (some "pdfminer_failed_used_fallback") env).2.1 = "pypdf_fallback" ∨
      (extractStage2 (some "pdfminer_failed_used_fallback") env).2.1 = "text_fallback") := by
  obtain ⟨pl, py, dec⟩ := env
  cases py with
  | ok raw =>
    simp only [extractStage2]
    by_cases h1 : pyStrip raw ≠ ""
    · rw [if_pos h1, if_pos trivial]
      exact ⟨h1, Or.inl rfl⟩
    · rw [if_neg h1, extractStage3_long _ _ h]
      exact ⟨long_ne_empty h, Or.inr rfl⟩
  | error e =>
    simp only [extractStage2]
    rw [extractStage3_long _ _ h]
    exact ⟨long_ne_empty h, Or.inr rfl⟩

/-- Stage 2 yields the `text_fallback` tag only past the strict 30-character
threshold. -/
theorem extractStage2_src_long (note : Option String) (env : ExtractEnv) :
    (extractStage2 note env).2.1 = "text_fallback" → 30 < (pyStrip env.decoded).length := by
  obtain ⟨pl, py, dec⟩ := env
  cases py with
  | ok raw =>
    simp only [extractStage2]
    by_cases h1 : pyStrip raw ≠ ""
    · rw [if_pos h1]
      split_ifs with h2
      · exact fun hx => absurd hx tag_pf_ne_tf
      · exact fun hx => absurd hx tag_py_ne_tf
    · rw [if_neg h1]
      exact extractStage3_src_long note _
  | error e =>
    simp only [extractStage2]
    exact extractStage3_src_long note _

/-- Stage 3 never reads the PyPDF2 outcome. -/
theorem extractStage3_pypdf_irrel (note : Option String) (pl py py' : Except String String)
    (dec : String) :
    extractStage3 note ⟨pl, py, dec⟩ = extractStage3 note ⟨pl, py', dec⟩ := rfl

/-- C6: `extract_text_from_pdf` is total (never raises) and its result
satisfies the invariant `source = "none"` if and only if `text = ""`: every
success carries non-empty text with a non-`none` tag and every total failure
carries empty text, the `none` tag and an explanatory note. -/
theorem c6_source_none_iff_empty_text (lib : PdfLib) (byteLen : Nat) (env : ExtractEnv) :
    ((extract_text_from_pdf lib byteLen env).2.1 = "none" ↔
      (extract_text_from_pdf lib byteLen env).1 = "") := by
  obtain ⟨pl, py, dec⟩ := env
  by_cases hb : byteLen = 0
  · unfold extract_text_from_pdf
    rw [if_pos hb]
    exact ⟨fun _ => rfl, fun _ => rfl⟩
  · unfold extract_text_from_pdf
    rw [if_neg hb]
    cases lib with
    | pdfplumber =>
      cases pl with
      | ok raw =>
        dsimp only
        split_ifs with hr
        · exact ⟨fun hx => absurd hx tag_pp_ne_none, fun hx => absurd hx hr⟩
        · exact extractStage3_none_iff none _
      | error e =>
        dsimp only
        split_ifs with hm
        · exact extractStage2_none_iff _ _
        · exact extractStage3_none_iff none _
    | pypdf2 => exact extractStage2_none_iff none _
    | nolib => exact extractStage3_none_iff none _

/-- C3 counterexample: pdfplumber fails with a pdfminer-type error, PyPDF2
fails, and the stripped lossy decode has length exactly 30 (so ≥ 30 as the
claim reads it); the extractor rejects the plain-text result (the code
requires strictly more than 30 characters) and reports total failure with
`source = "none"`, not a fallback source tag. -/
theorem c3_threshold_counterexample :
    (pyStrip envFallback30.decoded).length = 30 ∧
    (∃ e, envFallback30.plumber = Except.error e ∧ pdfminerLikeErr e = true) ∧
    extract_text_from_pdf .pdfplumber 100 envFallback30 =
      ("", "none", some "no_text_extracted") := by
  refine ⟨by decide, ⟨"no /root object found", rfl, by decide⟩, ?_⟩
  decide

/-- C3 (amended): when pdfplumber is the configured library, an exception in
it combined with a stripped plain-text decode strictly longer than 30
characters always produces non-empty text whose source tag is a fallback tag
(`pypdf_fallback` or `text_fallback`), never `pdfplumber`; the
`text_fallback` tag is only ever produced past the strict 30-character
threshold; and the secondary decoder is not consulted when pdfplumber
returned empty text or failed with a non-pdfminer-type error. -/
theorem c3_fallback_path_amended (lib : PdfLib) (byteLen : Nat) (env : ExtractEnv) :
    (∀ e, lib = .pdfplumber → byteLen ≠ 0 → env.plumber = Except.error e →
      30 < (pyStrip env.decoded).length →
      (extract_text_from_pdf lib byteLen env).1 ≠ "" ∧
      ((extract_text_from_pdf lib byteLen env).2.1 = "pypdf_fallback" ∨
        (extract_text_from_pdf lib byteLen env).2.1 = "text_fallback") ∧
      (extract_text_from_pdf lib byteLen env).2.1 ≠ "pdfplumber") ∧
    ((extract_text_from_pdf lib byteLen env).2.1 = "text_fallback" →
      30 < (pyStrip env.decoded).length) ∧
    (lib = .pdfplumber →
      ((∃ t, env.plumber = Except.ok t ∧ pyStrip t = "") ∨
        (∃ e, env.plumber = Except.error e ∧ pdfminerLikeErr e = false)) →
      ∀ q, extract_text_from_pdf lib byteLen { env with pypdf := q } =
        extract_text_from_pdf lib byteLen env) := by
  obtain ⟨pl, py, dec⟩ := env
  refine ⟨?_, ?_, ?_⟩
  · intro e hlib hb hp hlen
    subst hlib
    dsimp only at hp
    subst hp
    unfold extract_text_from_pdf
    rw [if_neg hb]
    dsimp only
    split_ifs with hm
    · obtain ⟨h1, h2⟩ := extractStage2_long ⟨Except.error e, py, dec⟩ hlen
      refine ⟨h1, h2, ?_⟩
      rcases h2 with h2 | h2 <;> rw [h2] <;> decide
    · rw [extractStage3_long none _ hlen]
      exact ⟨long_ne_empty hlen, Or.inr rfl, fun hx => absurd hx tag_tf_ne_pp⟩
  · intro hsrc
    by_cases hb : byteLen = 0
    · unfold extract_text_from_pdf at hsrc
      rw [if_pos hb] at hsrc
      exact absurd hsrc tag_none_ne_tf
    · unfold extract_text_from_pdf at hsrc
      rw [if_neg hb] at hsrc
      cases lib with
      | pdfplumber =>
        cases pl with
        | ok raw =>
          dsimp only at hsrc
          by_cases hr : pyStrip raw ≠ ""
          · rw [if_pos hr] at hsrc
            exact absurd hsrc tag_pp_ne_tf
          · rw [if_neg hr] at hsrc
            exact extractStage3_src_long none _ hsrc
        | error e =>
          dsimp only at hsrc
          split_ifs at hsrc with hm
          · exact extractStage2_src_long _ _ hsrc
          · exact extractStage3_src_long none _ hsrc
      | pypdf2 => exact extractStage2_src_long none _ hsrc
      | nolib => exact extractStage3_src_long none _ hsrc
  · intro hlib hcase q
    subst hlib
    by_cases hb : byteLen = 0
    · unfold extract_text_from_pdf
      rw [if_pos hb, if_pos hb]
    · rcases hcase with ⟨t, hp, ht⟩ | ⟨e, hp, hm⟩
      · dsimp only at hp
        subst hp
        unfold extract_text_from_pdf
        rw [if_neg hb, if_neg hb]
        dsimp only
        rw [if_neg (by simp [ht]), if_neg (by simp [ht])]
        exact extractStage3_pypdf_irrel none _ q py dec
      · dsimp only at hp
        subst hp
        unfold extract_text_from_pdf
        rw [if_neg hb, if_neg hb]
        dsimp only
        rw [if_neg (by simp [hm]), if_neg (by simp [hm])]
        exact extractStage3_pypdf_irrel none _ q py dec

/-- Witness for the amended C3 at a concrete input: pdfplumber raises, PyPDF2
raises, the stripped decode is 43 characters long, and the result is indeed
non-empty with a fallback source tag distinct from `pdfplumber`. -/
theorem c3_fallback_witness :
    (extract_text_from_pdf .pdfplumber 100 envFallbackLong).1 ≠ "" ∧
    ((extract_text_from_pdf .pdfplumber 100 envFallbackLong).2.1 = "pypdf_fallback" ∨
      (extract_text_from_pdf .pdfplumber 100 envFallbackLong).2.1 = "text_fallback") ∧
    (extract_text_from_pdf .pdfplumber 100 envFallbackLong).2.1 ≠ "pdfplumber" := by
  exact (c3_fallback_path_amended .pdfplumber 100 envFallbackLong).1
    "pdfminer failed to open stream" rfl (by decide) rfl (by decide)

/-- C5: whenever the stripped text acquired by `parse_resume` is empty or
shorter than 40 characters, the parser returns the structured failure carrying
the error message, a 500-character raw-text preview, the parsing library and
the note — never any (even partially populated) profile, so no field
extractor runs on sub-threshold text. -/
theorem c5_subthreshold_is_error (lib : PdfLib) (byteLen : Nat) (env : ExtractEnv)
    (textArg : Option String)
    (h : (pyStrip (resumeRawInput lib byteLen env textArg).1).length < 40) :
    parse_resume lib byteLen env textArg =
      ParseResult.failure "No meaningful text to parse"
        ((pyStrip (resumeRawInput lib byteLen env textArg).1).data.take 500)
        (resumeRawInput lib byteLen env textArg).2.1
        (resumeRawInput lib byteLen env textArg).2.2 ∧
    ∀ q : ResumeProfile, parse_resume lib byteLen env textArg ≠ ParseResult.profile q := by
  have hcond : pyStrip (resumeRawInput lib byteLen env textArg).1 = "" ∨
      (pyStrip (resumeRawInput lib byteLen env textArg).1).length < 40 := Or.inr h
  have hmain : parse_resume lib byteLen env textArg =
      ParseResult.failure "No meaningful text to parse"
        ((pyStrip (resumeRawInput lib byteLen env textArg).1).data.take 500)
        (resumeRawInput lib byteLen env textArg).2.1
        (resumeRawInput lib byteLen env textArg).2.2 := by
    unfold parse_resume
    rw [if_pos hcond]
  exact ⟨hmain, fun q hq => by rw [hmain] at hq; exact ParseResult.noConfusion hq⟩

/-- Witness for C5: a 9-character text input produces exactly the structured
failure result. -/
theorem c5_subthreshold_witness :
    parse_resume .nolib 0 ⟨Except.ok "", Except.ok "", ""⟩ (some "too short") =
      ParseResult.failure "No meaningful text to parse" "too short".data "text_input" none := by
  have h := (c5_subthreshold_is_error .nolib 0 ⟨Except.ok "", Except.ok "", ""⟩
    (some "too short") (by decide)).1
  rw [h]
  decide

/-- The `found` list accumulated by the hackathon keyword loop: one entry per
keyword occurring in the lowered text, in keyword order. -/
theorem hackathonFold_found (text textL : List Char) (kws : List String)
    (acc : List HackathonFound × HackathonWins) :
    (kws.foldl (hackathonStep text textL) acc).1 =
      acc.1 ++ (kws.filter (fun kw => containsSub kw.data textL)).map
        (fun kw => ⟨(hackathonSnippet text kw).take 200,
          snippetPlacement (hackathonSnippet text kw)⟩) := by
  induction kws generalizing acc with
  | nil => simp
  | cons k ks ih =>
    rw [List.foldl_cons, List.filter_cons]
    by_cases h : containsSub k.data textL
    · rw [ih]
      simp [hackathonStep, h]
    · rw [ih]
      simp [hackathonStep, h]

/-- The tally accumulated by the hackathon keyword loop equals folding the
bump over the per-hit placements. -/
theorem hackathonFold_wins (text textL : List Char) (kws : List String)
    (acc : List HackathonFound × HackathonWins) :
    (kws.foldl (hackathonStep text textL) acc).2 =
      ((kws.filter (fun kw => containsSub kw.data textL)).map
        (fun kw => snippetPlacement (hackathonSnippet text kw))).foldl bumpWins acc.2 := by
  induction kws generalizing acc with
  | nil => simp
  | cons k ks ih =>
    rw [List.foldl_cons, List.filter_cons]
    by_cases h : containsSub k.data textL
    · rw [ih]
      simp [hackathonStep, h]
    · rw [ih]
      simp [hackathonStep, h]

/-- Filtering a mapped list has the length of filtering the composition. -/
theorem filter_map_length {α β : Type} (f : α → β) (p : β → Bool) (l : List α) :
    ((l.map f).filter p).length = (l.filter (fun x => p (f x))).length := by
  induction l with
  | nil => rfl
  | cons a l ih =>
    rw [List.map_cons, List.filter_cons, List.filter_cons]
    by_cases h : p (f a) <;> simp [h, ih]

/-- Folding bumps counts first-tier placements. -/
theorem bumpFold_first (ps : List Placement) (w : HackathonWins) :
    (ps.foldl bumpWins w).first = w.first + (ps.filter (fun p => p = Placement.first)).length := by
  induction ps generalizing w with
  | nil => simp
  | cons p ps ih =>
    rw [List.foldl_cons, List.filter_cons]
    cases p <;> simp [bumpWins, ih] <;> omega

/-- Folding bumps counts second-tier placements. -/
theorem bumpFold_second (ps : List Placement) (w : HackathonWins) :
    (ps.foldl bumpWins w).second =
      w.second + (ps.filter (fun p => p = Placement.second)).length := by
  induction ps generalizing w with
  | nil => simp
  | cons p ps ih =>
    rw [List.foldl_cons, List.filter_cons]
    cases p <;> simp [bumpWins, ih] <;> omega

/-- Folding bumps counts third-tier placements. -/
theorem bumpFold_third (ps : List Placement) (w : HackathonWins) :
    (ps.foldl bumpWins w).third = w.third + (ps.filter (fun p => p = Placement.third)).length := by
  induction ps generalizing w with
  | nil => simp
  | cons p ps ih =>
    rw [List.foldl_cons, List.filter_cons]
    cases p <;> simp [bumpWins, ih] <;> omega

/-- Folding bumps counts finalist placements. -/
theorem bumpFold_finalist (ps : List Placement) (w : HackathonWins) :
    (ps.foldl bumpWins w).finalist =
      w.finalist + (ps.filter (fun p => p = Placement.finalist)).length := by
  induction ps generalizing w with
  | nil => simp
  | cons p ps ih =>
    rw [List.foldl_cons, List.filter_cons]
    cases p <;> simp [bumpWins, ih] <;> omega

/-- Folding bumps counts participant placements. -/
theorem bumpFold_participant (ps : List Placement) (w : HackathonWins) :
    (ps.foldl bumpWins w).participant =
      w.participant + (ps.filter (fun p => p = Placement.participant)).length := by
  induction ps generalizing w with
  | nil => simp
  | cons p ps ih =>
    rw [List.foldl_cons, List.filter_cons]
    cases p <;> simp [bumpWins, ih] <;> omega

/-- C7: for every input text, `extract_hackathon_wins` registers one hit per
competition keyword present, classifies the ±120-character window around each
hit's first occurrence into a placement tier, tallies per-tier counts,
computes the weighted score `10×first + 7×second + 5×third + 3×finalist +
1×participant`, and sets the signal exactly when the hit count is positive. -/
theorem c7_hackathon_window_tally (text : List Char) :
    (extract_hackathon_wins text).total_hackathons = (hackathonHits text).length ∧
    ((extract_hackathon_wins text).has_hackathon_experience = true ↔
      0 < (hackathonHits text).length) ∧
    (extract_hackathon_wins text).hackathon_score =
      10 * (extract_hackathon_wins text).wins_breakdown.first +
      7 * (extract_hackathon_wins text).wins_breakdown.second +
      5 * (extract_hackathon_wins text).wins_breakdown.third +
      3 * (extract_hackathon_wins text).wins_breakdown.finalist +
      (extract_hackathon_wins text).wins_breakdown.participant ∧
    (extract_hackathon_wins text).wins_breakdown.first =
      ((hackathonHits text).filter
        (fun kw => snippetPlacement (hackathonSnippet text kw) = Placement.first)).length ∧
    (extract_hackathon_wins text).wins_breakdown.second =
      ((hackathonHits text).filter
        (fun kw => snippetPlacement (hackathonSnippet text kw) = Placement.second)).length ∧
    (extract_hackathon_wins text).wins_breakdown.third =
      ((hackathonHits text).filter
        (fun kw => snippetPlacement (hackathonSnippet text kw) = Placement.third)).length ∧
    (extract_hackathon_wins text).wins_breakdown.finalist =
      ((hackathonHits text).filter
        (fun kw => snippetPlacement (hackathonSnippet text kw) = Placement.finalist)).length ∧
    (extract_hackathon_wins text).wins_breakdown.participant =
      ((hackathonHits text).filter
        (fun kw => snippetPlacement (hackathonSnippet text kw) = Placement.participant)).length := by
  have hfound := hackathonFold_found text (text.map Char.toLower) HACKATHON_KEYWORDS
    ([], ⟨0, 0, 0, 0, 0⟩)
  have hwins := hackathonFold_wins text (text.map Char.toLower) HACKATHON_KEYWORDS
    ([], ⟨0, 0, 0, 0, 0⟩)
  simp only [extract_hackathon_wins, hackathonHits]
  rw [hfound, hwins]
  simp only [List.nil_append, List.length_map]
  refine ⟨by trivial, ?_, by ring, ?_, ?_, ?_, ?_, ?_⟩
  · simp
  · rw [bumpFold_first, filter_map_length]
    simp
  · rw [bumpFold_second, filter_map_length]
    simp
  · rw [bumpFold_third, filter_map_length]
    simp
  · rw [bumpFold_finalist, filter_map_length]
    simp
  · rw [bumpFold_participant, filter_map_length]
    simp

/-- A left fold of `Nat.max` over a list equals the maximum of the seed and
the right fold from zero. -/
theorem foldl_max_eq (x : Nat) (xs : List Nat) :
    xs.foldl Nat.max x = Nat.max x (xs.foldr Nat.max 0) := by
  induction xs generalizing x with
  | nil => simp
  | cons y ys ih =>
    rw [List.foldl_cons, List.foldr_cons, ih]
    exact Nat.max_assoc x y _

/-- C8: `extract_experience_years` returns the maximum captured `N` over all
matches of the experience regex and 0 when no match exists; in particular the
text "5 years of experience... 3 years of experience" yields 5. -/
theorem c8_experience_years_max (text : List Char) :
    extract_experience_years text = (experienceMatches text).foldr Nat.max 0 ∧
    (experienceMatches text = [] → extract_experience_years text = 0) ∧
    extract_experience_years "5 years of experience... 3 years of experience".data = 5 := by
  refine ⟨?_, ?_, by decide⟩
  · unfold extract_experience_years
    rcases h : experienceMatches text with _ | ⟨x, xs⟩
    · rfl
    · exact foldl_max_eq x xs
  · intro h
    unfold extract_experience_years
    rw [h]

/-- C4: `rank_candidates` returns at most `top_k` results, ordered by score
descending with ties broken by shared-skill count descending (`rankRel`);
the underlying sort permutes the scored candidates and is stable: a pair
equal on both keys keeps its encounter order; and concretely, of two matches
both scoring 0.80 with shared-skill counts 3 and 1, the one with 3 shared
skills ranks first. -/
theorem c4_rank_sorted_stable (sq : ℚ → ℚ) (candidates : List UserData)
    (project : ProjectData) (top_k : Nat) :
    (rank_candidates sq candidates project top_k).length ≤ top_k ∧
    (rank_candidates sq candidates project top_k).Sorted rankRel ∧
    List.Perm (sortMatches (candidates.map (fun c => match_user_to_project sq c project)))
      (candidates.map (fun c => match_user_to_project sq c project)) ∧
    (∀ a b : Match, a.score = b.score → a.shared_skills.card = b.shared_skills.card →
      List.Sublist [a, b] (candidates.map (fun c => match_user_to_project sq c project)) →
      List.Sublist [a, b]
        (sortMatches (candidates.map (fun c => match_user_to_project sq c project)))) ∧
    sortMatches
      [{ target_id := "a", score := 4/5, reasons := [], shared_skills := {"x"},
         complementary_skills := ∅ },
       { target_id := "b", score := 4/5, reasons := [],
         shared_skills := {"x", "y", "z"}, complementary_skills := ∅ }] =
      [{ target_id := "b", score := 4/5, reasons := [],
         shared_skills := {"x", "y", "z"}, complementary_skills := ∅ },
       { target_id := "a", score := 4/5, reasons := [], shared_skills := {"x"},
         complementary_skills := ∅ }] := by
  refine ⟨?_, ?_, List.perm_insertionSort rankRel _, ?_, ?_⟩
  · unfold rank_candidates
    exact List.length_take_le top_k _
  · unfold rank_candidates sortMatches
    exact List.Pairwise.sublist (List.take_sublist _ _) (List.sorted_insertionSort rankRel _)
  · intro a b hsc hcard hsub
    exact List.pair_sublist_insertionSort (Or.inr ⟨hsc, le_of_eq hcard.symm⟩) hsub
  · have hnr : ¬ rankRel
        { target_id := "a", score := 4/5, reasons := [], shared_skills := {"x"},
          complementary_skills := ∅ }
        { target_id := "b", score := 4/5, reasons := [],
          shared_skills := {"x", "y", "z"}, complementary_skills := ∅ } := by
      intro hcontra
      rcases hcontra with hlt | ⟨_, hle⟩
      · exact absurd hlt (by norm_num)
      · have h3 : ({"x", "y", "z"} : Finset String).card = 3 := by decide
        have h1 : ({"x"} : Finset String).card = 1 := by decide
        rw [h3, h1] at hle
        omega
    unfold sortMatches
    simp only [List.insertionSort, List.orderedInsert]
    rw [if_neg hnr]

/-- Witness for C4 at concrete inputs: the truncation bound holds and a pair
of equal-key matches keeps its encounter order through the sort. -/
theorem c4_rank_witness :
    (rank_candidates sqrtToy [exampleUser, exampleUser] exampleProject 5).length ≤ 5 ∧
    List.Sublist
      [match_user_to_project sqrtToy exampleUser exampleProject,
       match_user_to_project sqrtToy exampleUser exampleProject]
      (sortMatches
        [match_user_to_project sqrtToy exampleUser exampleProject,
         match_user_to_project sqrtToy exampleUser exampleProject]) := by
  have h := c4_rank_sorted_stable sqrtToy [exampleUser, exampleUser] exampleProject 5
  have hsub : List.Sublist
      [match_user_to_project sqrtToy exampleUser exampleProject,
       match_user_to_project sqrtToy exampleUser exampleProject]
      ([exampleUser, exampleUser].map (fun c => match_user_to_project sqrtToy c exampleProject)) :=
    List.Sublist.refl _
  exact ⟨h.1, h.2.2.2.1 _ _ rfl rfl hsub⟩

/-- Witness for C7 at a concrete input: three competition keywords occur, so
three hits are tallied. -/
theorem c7_hackathon_witness :
    (extract_hackathon_wins "winner of the hackathon and devpost challenge".data).total_hackathons
      = 3 := by
  rw [(c7_hackathon_window_tally "winner of the hackathon and devpost challenge".data).1]
  decide

/-- Witness for C8 at a concrete input: no regex match yields 0. -/
theorem c8_experience_witness : extract_experience_years "no numeric mention".data = 0 :=
  (c8_experience_years_max "no numeric mention".data).2.1 (by decide)
